import Mathlib

/-! Verification development for the DiscordGolfBot repository.

The definitions below are a shallow embedding of `search.py` (the query
cache and the two cached search operations), `backend.py` (the
guild-configuration document store) and `bot.py` (event filtering, the
linescore transformation and the command layer).  Python timestamps are
modelled as integers counting microseconds (the precision of `datetime`),
the firestore document collection as a map from document ids (strings) to
guild configurations, the network as an explicit parameter carrying the
validated response, and a raised exception from a collaborator as the
`Except.error` case of an `Except` value.  The theorems at the end of the
file state and settle the specification's properties. -/

namespace GolfBot

/-! ### search.py: response data model -/

/-- Model of `search.Image`.  URL-valued fields are modelled as strings. -/
structure Image where
  height : Int
  width : Int
  contextLink : String
  thumbnailLink : String
  thumbnailHeight : Int
  thumbnailWidth : Int
  deriving DecidableEq

/-- Model of `search.ImageItem`. -/
structure ImageItem where
  kind : String
  title : String
  link : String
  image : Option Image
  deriving DecidableEq

/-- Model of `search.ImageSearchResponse` (`items` defaults to `[]`). -/
structure ImageSearchResponse where
  items : List ImageItem := []
  deriving DecidableEq

/-- Model of `search.MetaTags` (the optional `og:image` URL). -/
structure MetaTags where
  image : Option String := none
  deriving DecidableEq

/-- Model of `search.PageMap`. -/
structure PageMap where
  metatags : List MetaTags
  deriving DecidableEq

/-- Model of `search.TextItem`. -/
structure TextItem where
  kind : String
  title : String
  link : String
  snippet : String
  pagemap : PageMap
  deriving DecidableEq

/-- Model of `search.TextSearchResponse` (`items` defaults to `[]`). -/
structure TextSearchResponse where
  items : List TextItem := []
  deriving DecidableEq

/-- Model of `search.CachedImageSearch` / `search.CachedTextSearch`: a
response tagged with the timestamp `ts` it carries, in microseconds. -/
structure Cached (α : Type) where
  ts : Int
  response : α
  deriving DecidableEq

/-- The backing map of a `SearchCache` (the Python `dict` keyed by the query
string). -/
abbrev Cache (α : Type) : Type := String → Option (Cached α)

/-- Model of `SearchCache.CACHE_AGE_DAYS`. -/
def CACHE_AGE_DAYS : Int := 10

/-- Microseconds in `datetime.timedelta(days=SearchCache.CACHE_AGE_DAYS)`. -/
def maxCacheAge : Int := CACHE_AGE_DAYS * 86400 * 1000000

/-- Model of `SearchCache.get_from_cache`.  The Python method reads
`self.cache.get(key)` (a pydantic model is always truthy, so `not result`
holds exactly for an absent key), compares the entry timestamp against
`now - timedelta(days=CACHE_AGE_DAYS)`, and returns on each path without
writing `self.cache`.  The second component of the result is the backing
map after the call, returned explicitly so that frame properties are
statable. -/
def get_from_cache (cache : Cache α) (key : String) (now : Int) :
    Option (Cached α) × Cache α :=
  match cache key with
  | none => (none, cache)
  | some result =>
    if result.ts < now - maxCacheAge then (none, cache)
    else (some result, cache)

/-- Model of `ImageSearchCache.add_to_cache` / `TextSearchCache.add_to_cache`:
`self.cache[key] = value`. -/
def add_to_cache (cache : Cache α) (key : String) (value : Cached α) : Cache α :=
  fun k => if k = key then some value else cache k

/-- Model of the mutable state of `search.Search`: its two caches. -/
structure SearchState where
  image_search_cache : Cache ImageSearchResponse
  text_search_cache : Cache TextSearchResponse

/-- Model of `Search.get_first_web_result`.  The HTTP call is modelled by
the `fetched` parameter: the validated `TextSearchResponse` the network
returns for this query.  `ts_default` is the timestamp pydantic gives a
newly constructed `CachedTextSearch` (its class-level `datetime.now()`
default).  On a cache hit the Python code indexes `items[0]`, which raises
on an empty list; the model returns `items.head?` (the invariant below
shows cached item lists are never empty). -/
def get_first_web_result (s : SearchState) (now ts_default : Int)
    (fetched : TextSearchResponse) (search_str : String) :
    Option TextItem × SearchState :=
  match (get_from_cache s.text_search_cache search_str now).1 with
  | some cached_result => (cached_result.response.items.head?, s)
  | none =>
    if fetched.items = [] then (none, s)
    else
      let entry : Cached TextSearchResponse := { ts := ts_default, response := fetched }
      (fetched.items.head?,
        { s with text_search_cache := add_to_cache s.text_search_cache search_str entry })

/-- Model of `Search.get_first_image`, exactly parallel to
`get_first_web_result` but on the image cache. -/
def get_first_image (s : SearchState) (now ts_default : Int)
    (fetched : ImageSearchResponse) (search_str : String) :
    Option ImageItem × SearchState :=
  match (get_from_cache s.image_search_cache search_str now).1 with
  | some cached_result => (cached_result.response.items.head?, s)
  | none =>
    if fetched.items = [] then (none, s)
    else
      let entry : Cached ImageSearchResponse := { ts := ts_default, response := fetched }
      (fetched.items.head?,
        { s with image_search_cache := add_to_cache s.image_search_cache search_str entry })

/-! ### backend.py: guild configuration store -/

/-- Model of `backend.Flag`. -/
structure Flag where
  href : String
  country : String
  deriving DecidableEq

/-- Model of `backend.PlayerDetails`. -/
structure PlayerDetails where
  fullName : String
  shortName : String
  flag : Flag
  deriving DecidableEq

/-- Model of `backend.GuildConfig`, with the pydantic field defaults. -/
structure GuildConfig where
  guild_id : Int
  track_players : List String
  notification_channel : Option Int := none
  notifications_enabled : Bool := false
  event_notifications : List String := []
  deriving DecidableEq

/-- Model of the firestore `guildConfigs` collection: documents keyed by the
stringified guild id.  Every document the program writes is
`dict(guild_config)` for some `GuildConfig`, so documents are modelled as
`GuildConfig` values and a missing document as `none` (the only falsy value
`to_dict()` yields for this collection). -/
abbrev Store : Type := String → Option GuildConfig

/-- Model of `BackendStore.add_or_get_guild_config`: read the document at
`str(guild_id)`; when absent, construct the default configuration, persist
it and return it; when present, return it unchanged.  The second component
is the collection after the call. -/
def add_or_get_guild_config (store : Store) (guild_id : Int) :
    GuildConfig × Store :=
  match store (toString guild_id) with
  | none =>
    let guild_config : GuildConfig := { guild_id := guild_id, track_players := [] }
    (guild_config,
      fun k => if k = toString guild_id then some guild_config else store k)
  | some data => (data, store)

/-- Model of `BackendStore.get_notification`.  The Python method returns
`True` when the title is among `event_notifications` and falls through to
`None` (falsy) otherwise; it is modelled as the corresponding `Bool`. -/
def get_notification (store : Store) (guild_id : Int)
    (notification_title : String) : Bool :=
  (add_or_get_guild_config store guild_id).1.event_notifications.contains
    notification_title

/-- Model of `BackendStore.add_sent_notification`: fetch (or lazily create)
the guild configuration, and when the title is not already recorded, append
it and write the document back.  Returns the collection after the call. -/
def add_sent_notification (store : Store) (guild_id : Int)
    (notification_title : String) : Store :=
  match add_or_get_guild_config store guild_id with
  | (guild_config, store1) =>
    if notification_title ∈ guild_config.event_notifications then store1
    else
      let updated := { guild_config with
        event_notifications := guild_config.event_notifications ++ [notification_title] }
      fun k => if k = toString guild_id then some updated else store1 k

/-! ### bot.py: scoreboard data model -/

/-- Model of one element of a player's `linescores` list as consumed by
`linescores_to_rounds`: the per-hole `value`. -/
structure RoundLinescore where
  value : Int
  deriving DecidableEq

/-- Model of one round entry of `Player.linescores`: the round total under
key `value` (absent keys give `None` from `dict.get`) and the per-hole
entries under key `linescores`. -/
structure LineScore where
  value : Option Int := none
  linescores : List RoundLinescore := []
  deriving DecidableEq

/-- Model of `bot.Player` (alias `competitors` in the feed). -/
structure Player where
  id : Int
  details : PlayerDetails
  score : Int
  linescores : List LineScore
  deriving DecidableEq

/-- Model of `bot.Competition`. -/
structure Competition where
  id : Int
  players : List Player
  deriving DecidableEq

/-- Model of `bot.Links`. -/
structure Links where
  href : String
  deriving DecidableEq

/-- Model of `bot.EventStatusType`. -/
structure EventStatusType where
  id : Int
  name : String
  state : String
  completed : Bool
  description : String
  deriving DecidableEq

/-- Model of `bot.EventStatus`. -/
structure EventStatus where
  type : EventStatusType
  deriving DecidableEq

/-- Model of `bot.RunningEvent`; dates are microsecond timestamps. -/
structure RunningEvent where
  id : Int
  startDate : Int
  endDate : Int
  name : String
  shortName : String
  event_status : EventStatus
  competitions : List Competition
  links : List Links
  deriving DecidableEq

/-- Model of `bot.Hole`. -/
structure Hole where
  number : Nat
  score : Int
  deriving DecidableEq

/-- Model of `bot.Scorecard`. -/
structure Scorecard where
  holes : List Hole
  deriving DecidableEq

/-- Model of `bot.Rounds`. -/
structure Rounds where
  scorecards : List Scorecard
  deriving DecidableEq

/-- Model of `bot.linescores_to_rounds`: one scorecard per linescore entry
whose round total (`line_score.get("value")`) is truthy, i.e. present and
non-zero; each scorecard holds one hole per per-hole entry, numbered from
one by `enumerate`. -/
def linescores_to_rounds (linescores : List LineScore) : Rounds :=
  { scorecards := linescores.filterMap fun line_score =>
      match line_score.value with
      | none => none
      | some value =>
        if value = 0 then none
        else some { holes := line_score.linescores.enum.map fun p =>
            { number := p.1 + 1, score := p.2.value } } }

/-- Model of `bot.get_current_round_number`:
`sorted([len(x.scorecards) for x in all_rounds], reverse=True)[0]`.  The
Python expression raises `IndexError` on an empty list, so the model
returns the head of the descending sort as an `Option`. -/
def get_current_round_number (all_rounds : List Rounds) : Option Nat :=
  ((all_rounds.map fun x => x.scorecards.length).mergeSort fun a b =>
    decide (b ≤ a)).head?

/-- Model of Python `str.lower` as applied to player and tracked names. -/
def lower (s : String) : String :=
  { data := s.data.map Char.toLower }

/-- Competitors of an event as read by the filter:
`event.competitions[0].players`.  Python raises `IndexError` when
`competitions` is empty; the theorems below restrict to events with at
least one competition, where `headD` agrees with the Python indexing. -/
def firstCompetitionPlayers (event : RunningEvent) : List Player :=
  (event.competitions.headD { id := 0, players := [] }).players

/-- Model of `Commands._get_guild_config`: with a backend, delegate to
`add_or_get_guild_config` (the store write a lazy creation performs does
not affect the returned configuration); without one, a fresh default
configuration. -/
def Commands.getGuildConfig (backend : Option Store) (guild_id : Int) :
    GuildConfig :=
  match backend with
  | some store => (add_or_get_guild_config store guild_id).1
  | none => { guild_id := guild_id, track_players := [] }

/-- Model of `Commands._filter_events_by_guild_config`.  A falsy
`guild_id` (`None` or `0`) skips filtering; otherwise an event is kept
exactly when the lowercased tracked-player names and the lowercased full
names of `event.competitions[0].players` intersect
(`bool(set(track_players) & set(competition_players))`). -/
def Commands.filterEventsByGuildConfig (backend : Option Store)
    (guild_id : Option Int) (events : List RunningEvent) :
    List RunningEvent :=
  if guild_id = none ∨ guild_id = some 0 then events
  else
    let track_players :=
      (Commands.getGuildConfig backend (guild_id.getD 0)).track_players.map lower
    events.filter fun event =>
      let competition_players :=
        (firstCompetitionPlayers event).map fun x => lower x.details.fullName
      track_players.any fun t => competition_players.contains t

/-- Model of `Commands.add_tracked_player`.  The backend write
`self.backend.add_tracked_player(...)` is modelled by its outcome: `ok`
with the resulting configuration, or `error` with the exception message.
The function is total, which is the model of the `try/except` swallowing
every exception. -/
def Commands.add_tracked_player (backend_write : Except String GuildConfig)
    (player_name : String) : String :=
  match backend_write with
  | Except.ok _ => s!"Added {player_name} to the list of tracked players!"
  | Except.error _ => "Failed to add player - backend failure."

/-- Model of `Commands.enable_notifications`, with the backend write
modelled by its outcome as in `Commands.add_tracked_player`. -/
def Commands.enable_notifications (backend_write : Except String GuildConfig) :
    String :=
  match backend_write with
  | Except.ok _ => "Notifications enabled in this channel."
  | Except.error _ => "Failed to enable notifications - backend failure."

/-- Invariant of the stored guild configurations: no title occurs twice in
any stored `event_notifications` list (the spec's "set of strings"). -/
def sentTitlesNodup (store : Store) : Prop :=
  ∀ k gc, store k = some gc → gc.event_notifications.Nodup

/-- Invariant of the search caches: every stored entry's response holds at
least one item. -/
def searchEntriesNonempty (s : SearchState) : Prop :=
  (∀ k e, s.text_search_cache k = some e → e.response.items ≠ []) ∧
  (∀ k e, s.image_search_cache k = some e → e.response.items ≠ [])

/-! ### Concrete fixtures used by counterexamples and witnesses -/

/-- A guild configuration with one tracked player (mirrors `MockBackend` in
`test_bot.py`). -/
def trackedConfig : GuildConfig :=
  { guild_id := 7, track_players := ["Rory McIlroy"] }

/-- A store holding `trackedConfig` as the document of guild 7. -/
def trackedStore : Store :=
  fun k => if k = "7" then some trackedConfig else none

/-- A guild configuration that has already recorded one sent notification. -/
def notifiedConfig : GuildConfig :=
  { guild_id := 9, track_players := [],
    event_notifications := ["test_notification_title"] }

/-- A store holding `notifiedConfig` as the document of guild 9. -/
def notifiedStore : Store :=
  fun k => if k = "9" then some notifiedConfig else none

/-- A guild configuration tracking nobody. -/
def untrackedConfig : GuildConfig := { guild_id := 3, track_players := [] }

/-- A store holding `untrackedConfig` as the document of guild 3. -/
def untrackedStore : Store :=
  fun k => if k = "3" then some untrackedConfig else none

/-- A placeholder flag for fixture players. -/
def demoFlag : Flag := { href := "flag.png", country := "Northern Ireland" }

/-- A fixture competitor with the given full name. -/
def demoPlayer (full_name : String) : Player :=
  { id := 1,
    details := { fullName := full_name, shortName := full_name, flag := demoFlag },
    score := 0, linescores := [] }

/-- A fixture in-progress event status. -/
def demoStatus : EventStatus :=
  { type := { id := 1, name := "STATUS_IN_PROGRESS", state := "in",
              completed := false, description := "In Progress" } }

/-- A fixture event with one competition holding the given players. -/
def demoEvent (event_name : String) (players : List Player) : RunningEvent :=
  { id := 1, startDate := 0, endDate := 0, name := event_name,
    shortName := event_name,
    event_status := demoStatus,
    competitions := [{ id := 1, players := players }],
    links := [{ href := "https://example.com" }] }

/-- An event featuring the tracked player of `trackedConfig`. -/
def roryEvent : RunningEvent := demoEvent "The Open" [demoPlayer "Rory McIlroy"]

/-- An event featuring nobody tracked. -/
def otherEvent : RunningEvent := demoEvent "Other Cup" [demoPlayer "Someone Else"]

/-- A fixture scorecard with one hole. -/
def demoScorecard : Scorecard := { holes := [{ number := 1, score := 4 }] }

/-- Fixture rounds for two players: one scorecard for the first player and
two for the second, as in the scoreboard fixture of `test_bot.py`. -/
def demoAllRounds : List Rounds :=
  [{ scorecards := [demoScorecard] },
   { scorecards := [demoScorecard, demoScorecard] }]

/-- Fixture linescores: one entry with a non-zero total, one with a zero
total and one with a missing total. -/
def demoLineScores : List LineScore :=
  [{ value := some 5, linescores := [{ value := 4 }] },
   { value := some 0, linescores := [{ value := 4 }] },
   { value := none }]

/-- A fixture web search result. -/
def demoTextItem : TextItem :=
  { kind := "customsearch#result", title := "Result",
    link := "https://example.com", snippet := "A snippet.",
    pagemap := { metatags := [] } }

/-- A fixture text response with one item. -/
def demoTextResponse : TextSearchResponse := { items := [demoTextItem] }

/-- A fixture image search result. -/
def demoImageItem : ImageItem :=
  { kind := "customsearch#result", title := "Image",
    link := "https://example.com/i.png", image := none }

/-- A fixture image response with one item. -/
def demoImageResponse : ImageSearchResponse := { items := [demoImageItem] }

/-- An expired text cache entry (stamped at time zero). -/
def expiredTextEntry : Cached TextSearchResponse :=
  { ts := 0, response := demoTextResponse }

/-- An expired image cache entry (stamped at time zero). -/
def expiredImageEntry : Cached ImageSearchResponse :=
  { ts := 0, response := demoImageResponse }

/-- A search state whose caches hold expired entries for one query. -/
def expiredSearch : SearchState :=
  { text_search_cache :=
      fun k => if k = "stale query" then some expiredTextEntry else none,
    image_search_cache :=
      fun k => if k = "stale query" then some expiredImageEntry else none }

/-- A cache entry stamped at time zero (mirrors the dummy entries of
`test_search.py`, whose cached responses also carry empty item lists). -/
def staleEntry : Cached TextSearchResponse := { ts := 0, response := {} }

/-- A cache holding `staleEntry` under one key. -/
def staleCache : Cache TextSearchResponse :=
  fun k => if k = "test search query" then some staleEntry else none

/-- A search state with both caches empty. -/
def emptySearch : SearchState :=
  { image_search_cache := fun _ => none, text_search_cache := fun _ => none }

end GolfBot

namespace GolfBot

/-! ### Theorems -/

/-- C1 (amended): for every key, `SearchCache.get_from_cache key` returns
the stored entry exactly when `now - fetchedAt ≤ maxAge` (10 days): within
that window it returns the value that was stored; once the entry's age
strictly exceeds 10 days, or when the key was never stored, it returns
nothing. -/
theorem get_from_cache_window_le {α : Type} (cache : Cache α) (key : String)
    (now : Int) :
    ∀ e : Cached α, (get_from_cache cache key now).1 = some e ↔
      cache key = some e ∧ now - e.ts ≤ maxCacheAge := by
  intro e
  cases h : cache key with
  | none => simp [get_from_cache, h]
  | some r =>
    simp only [get_from_cache, h]
    by_cases hexp : r.ts < now - maxCacheAge
    · rw [if_pos hexp]
      simp only [false_iff, reduceCtorEq]
      rintro ⟨he, hle⟩
      cases he
      omega
    · rw [if_neg hexp]
      simp only [Option.some.injEq]
      constructor
      · rintro rfl
        exact ⟨rfl, by omega⟩
      · rintro ⟨he, _⟩
        cases he
        rfl

/-- C1, counterexample to the claim as stated: an entry whose age is
exactly the maximum cache age (`now - ts = maxCacheAge`) is still
returned by `get_from_cache`, while the claim says an entry whose age
reaches 10 days returns nothing. -/
theorem get_from_cache_boundary_counterexample :
    ¬ (maxCacheAge ≤ maxCacheAge - staleEntry.ts →
        (get_from_cache staleCache "test search query" maxCacheAge).1 = none) := by
  intro h
  have h2 := h (by simp [staleEntry])
  simp [get_from_cache, staleCache, staleEntry, maxCacheAge, CACHE_AGE_DAYS] at h2

/-- C8: a lookup through `get_from_cache` leaves the cache's backing map
unchanged whether it hits, misses or finds an expired entry, and
`add_to_cache` stores under the given key while leaving every other key's
entry as it was. -/
theorem get_from_cache_frame {α : Type} (cache : Cache α) (key k2 : String)
    (now : Int) (value : Cached α) (h : k2 ≠ key) :
    (get_from_cache cache key now).2 = cache ∧
    add_to_cache cache key value key = some value ∧
    add_to_cache cache key value k2 = cache k2 := by
  refine ⟨?_, ?_, ?_⟩
  · cases h2 : cache key with
    | none => simp [get_from_cache, h2]
    | some r =>
      by_cases hexp : r.ts < now - maxCacheAge <;> simp [get_from_cache, h2, hexp]
  · simp [add_to_cache]
  · simp [add_to_cache, h]

/-- C8, witness: the frame property applied to a concrete cache, key and
entry. -/
theorem get_from_cache_frame_witness :
    (get_from_cache (fun _ => (none : Option (Cached TextSearchResponse))) "a" 0).2 =
      (fun _ => none) ∧
    add_to_cache (fun _ => none) "a" staleEntry "a" = some staleEntry ∧
    add_to_cache (fun _ => none) "a" staleEntry "b" =
      (fun _ => (none : Option (Cached TextSearchResponse))) "b" :=
  get_from_cache_frame (fun _ => none) "a" "b" 0 staleEntry (by decide)

/-- C5: when the backend write raises, `Commands.add_tracked_player`
returns "Failed to add player - backend failure." and
`Commands.enable_notifications` returns "Failed to enable notifications -
backend failure."; on success the corresponding success string is
returned.  Both functions are total, so no exception reaches the caller. -/
theorem command_failure_strings (err : String) (gc gc2 : GuildConfig)
    (player_name : String) :
    Commands.add_tracked_player (Except.error err) player_name =
      "Failed to add player - backend failure." ∧
    Commands.add_tracked_player (Except.ok gc) player_name =
      s!"Added {player_name} to the list of tracked players!" ∧
    Commands.enable_notifications (Except.error err) =
      "Failed to enable notifications - backend failure." ∧
    Commands.enable_notifications (Except.ok gc2) =
      "Notifications enabled in this channel." :=
  ⟨rfl, rfl, rfl, rfl⟩

/-- C6: for a guild id with no stored document, `add_or_get_guild_config`
creates, persists and returns a configuration with that guild id, an empty
tracked-player list, notifications disabled, no notification channel and
an empty sent-notification list, touching no other document; for a guild
id with an existing document it returns the stored configuration and the
unchanged store. -/
theorem add_or_get_guild_config_spec (store store2 : Store) (g g2 : Int)
    (gc2 : GuildConfig) (h1 : store (toString g) = none)
    (h2 : store2 (toString g2) = some gc2) :
    (add_or_get_guild_config store g).1 =
      { guild_id := g, track_players := [], notification_channel := none,
        notifications_enabled := false, event_notifications := [] } ∧
    (add_or_get_guild_config store g).2 (toString g) =
      some (add_or_get_guild_config store g).1 ∧
    (∀ k, k ≠ toString g → (add_or_get_guild_config store g).2 k = store k) ∧
    add_or_get_guild_config store2 g2 = (gc2, store2) := by
  refine ⟨?_, ?_, ?_, ?_⟩
  · simp [add_or_get_guild_config, h1]
  · simp [add_or_get_guild_config, h1]
  · intro k hk
    simp [add_or_get_guild_config, h1, hk]
  · simp [add_or_get_guild_config, h2]

/-- C6, witness: lazy creation for guild 5 on an empty store and a
read-only hit for guild 7 on `trackedStore`. -/
theorem add_or_get_guild_config_spec_witness :
    (add_or_get_guild_config (fun _ => none) 5).1 =
      { guild_id := 5, track_players := [], notification_channel := none,
        notifications_enabled := false, event_notifications := [] } ∧
    (add_or_get_guild_config (fun _ => none) 5).2 (toString (5 : Int)) =
      some (add_or_get_guild_config (fun _ => none) 5).1 ∧
    (∀ k, k ≠ toString (5 : Int) →
      (add_or_get_guild_config (fun _ => none) 5).2 k = (fun _ => none) k) ∧
    add_or_get_guild_config trackedStore 7 = (trackedConfig, trackedStore) :=
  add_or_get_guild_config_spec (fun _ => none) trackedStore 5 7 trackedConfig
    rfl (by decide)

/-- C7: adding a sent notification preserves the at-most-once invariant on
stored notification titles, adding an already-recorded title leaves the
store unchanged, and after `add_sent_notification g t` a
`get_notification g t` returns true. -/
theorem add_sent_notification_set_behavior (store : Store) (g : Int)
    (t : String) (hInv : sentTitlesNodup store)
    (store2 : Store) (g2 : Int) (t2 : String) (gc2 : GuildConfig)
    (h2 : store2 (toString g2) = some gc2)
    (h3 : t2 ∈ gc2.event_notifications) :
    sentTitlesNodup (add_sent_notification store g t) ∧
    add_sent_notification store2 g2 t2 = store2 ∧
    get_notification (add_sent_notification store g t) g t = true := by
  refine ⟨?_, ?_, ?_⟩
  · intro k gc hk
    cases h : store (toString g) with
    | none =>
      by_cases hkey : k = toString g
      · subst hkey
        simp [add_sent_notification, add_or_get_guild_config, h] at hk
        subst hk
        simp
      · simp [add_sent_notification, add_or_get_guild_config, h, hkey] at hk
        exact hInv k gc hk
    | some gc0 =>
      by_cases hmem : t ∈ gc0.event_notifications
      · simp [add_sent_notification, add_or_get_guild_config, h, hmem] at hk
        exact hInv k gc hk
      · by_cases hkey : k = toString g
        · subst hkey
          simp [add_sent_notification, add_or_get_guild_config, h, hmem] at hk
          subst hk
          simp only [List.nodup_append]
          refine ⟨hInv (toString g) gc0 h, List.nodup_singleton t, ?_⟩
          intro a ha hat
          rw [List.mem_singleton] at hat
          subst hat
          exact hmem ha
        · simp [add_sent_notification, add_or_get_guild_config, h, hmem,
            hkey] at hk
          exact hInv k gc hk
  · simp [add_sent_notification, add_or_get_guild_config, h2, h3]
  · cases h : store (toString g) with
    | none =>
      simp [add_sent_notification, add_or_get_guild_config, get_notification, h]
    | some gc0 =>
      by_cases hmem : t ∈ gc0.event_notifications
      · simp [add_sent_notification, add_or_get_guild_config, get_notification,
          h, hmem]
      · simp [add_sent_notification, add_or_get_guild_config, get_notification,
          h, hmem]

/-- C7, witness: the set behavior applied to an empty store for guild 5 and
to `notifiedStore`, which already records the title, for guild 9. -/
theorem add_sent_notification_set_behavior_witness :
    sentTitlesNodup (add_sent_notification (fun _ => none) 5 "The Open won") ∧
    add_sent_notification notifiedStore 9 "test_notification_title" =
      notifiedStore ∧
    get_notification (add_sent_notification (fun _ => none) 5 "The Open won")
      5 "The Open won" = true :=
  add_sent_notification_set_behavior (fun _ => none) 5 "The Open won"
    (fun _ _ hk => nomatch hk) notifiedStore 9 "test_notification_title"
    notifiedConfig (by decide) (by decide)

/-- C2: for a guild with a stored configuration, an event passes
`Commands._filter_events_by_guild_config` exactly when some competitor of
the event has a full name equal, case-insensitively, to some name in the
guild's tracked-player list; no event lacking a tracked player appears in
the result. -/
theorem filter_events_tracked_only (store : Store) (g : Int)
    (gc : GuildConfig) (events : List RunningEvent) (e : RunningEvent)
    (hg : g ≠ 0) (hstore : store (toString g) = some gc)
    (_hcomp : ∀ ev ∈ events, ev.competitions ≠ []) :
    e ∈ Commands.filterEventsByGuildConfig (some store) (some g) events ↔
      e ∈ events ∧ ∃ p ∈ firstCompetitionPlayers e,
        ∃ name ∈ gc.track_players, lower p.details.fullName = lower name := by
  unfold Commands.filterEventsByGuildConfig
  rw [if_neg (by simp [hg])]
  have hgc : Commands.getGuildConfig (some store) ((some g).getD 0) = gc := by
    simp [Commands.getGuildConfig, add_or_get_guild_config, hstore]
  rw [hgc, List.mem_filter]
  simp only [List.any_eq_true, List.mem_map, List.elem_iff]
  constructor
  · rintro ⟨he, t, ⟨name, hn, rfl⟩, p, hp, hpt⟩
    exact ⟨he, p, hp, name, hn, hpt⟩
  · rintro ⟨he, p, hp, name, hn, heq⟩
    exact ⟨he, lower name, ⟨name, hn, rfl⟩, p, hp, heq⟩

/-- C2, witness: guild 7 tracks Rory McIlroy; membership of `roryEvent` in
the filtered list is equivalent to the event featuring a tracked player. -/
theorem filter_events_tracked_only_witness :
    roryEvent ∈ Commands.filterEventsByGuildConfig (some trackedStore)
      (some 7) [roryEvent, otherEvent] ↔
      roryEvent ∈ [roryEvent, otherEvent] ∧
        ∃ p ∈ firstCompetitionPlayers roryEvent,
          ∃ name ∈ trackedConfig.track_players,
            lower p.details.fullName = lower name :=
  filter_events_tracked_only trackedStore 7 trackedConfig
    [roryEvent, otherEvent] roryEvent (by decide) (by decide) (by decide)

/-- C10: a non-null guild id whose stored configuration tracks no players
filters out every event (the Python code evaluates `competitions[0]` for
each event even then, so the events are restricted, as in C2, to those
with at least one competition, where the model agrees with the indexing),
while a falsy guild id (`None` or `0`) skips filtering before touching any
event and returns the input event list unchanged. -/
theorem filter_events_empty_tracked (store : Store) (g : Int)
    (gc : GuildConfig) (events : List RunningEvent) (hg : g ≠ 0)
    (hstore : store (toString g) = some gc)
    (hempty : gc.track_players = [])
    (_hcomp : ∀ ev ∈ events, ev.competitions ≠ []) :
    Commands.filterEventsByGuildConfig (some store) (some g) events = [] ∧
    (∀ (backend : Option Store) (evs : List RunningEvent),
      Commands.filterEventsByGuildConfig backend none evs = evs ∧
      Commands.filterEventsByGuildConfig backend (some 0) evs = evs) := by
  constructor
  · unfold Commands.filterEventsByGuildConfig
    rw [if_neg (by simp [hg])]
    have hgc : Commands.getGuildConfig (some store) ((some g).getD 0) = gc := by
      simp [Commands.getGuildConfig, add_or_get_guild_config, hstore]
    rw [hgc, hempty]
    simp
  · intro backend evs
    constructor <;> simp [Commands.filterEventsByGuildConfig]

/-- C10, witness: guild 3 tracks nobody, so both fixture events are
filtered out, and a `None` or `0` guild id leaves them untouched. -/
theorem filter_events_empty_tracked_witness :
    Commands.filterEventsByGuildConfig (some untrackedStore) (some 3)
      [roryEvent, otherEvent] = [] ∧
    (∀ (backend : Option Store) (evs : List RunningEvent),
      Commands.filterEventsByGuildConfig backend none evs = evs ∧
      Commands.filterEventsByGuildConfig backend (some 0) evs = evs) :=
  filter_events_empty_tracked untrackedStore 3 untrackedConfig
    [roryEvent, otherEvent] (by decide) (by decide) (by decide) (by decide)

/-- Helper: the length of a `filterMap` counts the inputs the function
keeps. -/
theorem length_filterMap_eq_countP {α β : Type} (f : α → Option β)
    (l : List α) :
    (l.filterMap f).length = l.countP fun a => (f a).isSome := by
  induction l with
  | nil => rfl
  | cons a l ih =>
    cases h : f a <;> simp [List.filterMap_cons, h, List.countP_cons, ih]

/-- C3: `linescores_to_rounds` produces one scorecard per linescore entry
whose round total is present and non-zero, and for a non-empty list of
players' rounds `get_current_round_number` returns the largest number of
scorecards held by any player. -/
theorem current_round_is_max (linescores : List LineScore)
    (all_rounds : List Rounds) (hne : all_rounds ≠ []) :
    (linescores_to_rounds linescores).scorecards.length =
      linescores.countP
        (fun l => decide (l.value ≠ none ∧ l.value ≠ some 0)) ∧
    ∃ m, get_current_round_number all_rounds = some m ∧
      m ∈ all_rounds.map (fun x => x.scorecards.length) ∧
      ∀ n ∈ all_rounds.map (fun x => x.scorecards.length), n ≤ m := by
  constructor
  · rw [linescores_to_rounds, length_filterMap_eq_countP]
    apply List.countP_congr
    intro a _
    cases hv : a.value with
    | none => simp [hv]
    | some v => by_cases h0 : v = 0 <;> simp [hv, h0]
  · have hperm := List.mergeSort_perm (all_rounds.map fun x => x.scorecards.length)
      (fun a b => decide (b ≤ a))
    have hsorted := @List.sorted_mergeSort Nat (fun a b => decide (b ≤ a))
      (fun a b c h1 h2 => by
        simp only [decide_eq_true_eq] at h1 h2 ⊢
        omega)
      (fun a b => by simpa using Nat.le_total b a)
      (all_rounds.map fun x => x.scorecards.length)
    cases hms : (all_rounds.map fun x => x.scorecards.length).mergeSort
        (fun a b => decide (b ≤ a)) with
    | nil =>
      rw [hms] at hperm
      rw [List.nil_perm, List.map_eq_nil_iff] at hperm
      exact absurd hperm hne
    | cons m rest =>
      rw [hms] at hperm hsorted
      refine ⟨m, ?_, ?_, ?_⟩
      · rw [get_current_round_number, hms]
        rfl
      · exact hperm.mem_iff.mp (List.mem_cons_self m rest)
      · intro n hn
        rcases List.mem_cons.mp (hperm.symm.mem_iff.mp hn) with h | h
        · omega
        · have := List.rel_of_pairwise_cons hsorted h
          simp only [decide_eq_true_eq] at this
          exact this

/-- C3, witness: on the fixture data, one scorecard per non-zero entry and
the computed current round is the maximum scorecard count. -/
theorem current_round_is_max_witness :
    (linescores_to_rounds demoLineScores).scorecards.length =
      demoLineScores.countP
        (fun l => decide (l.value ≠ none ∧ l.value ≠ some 0)) ∧
    ∃ m, get_current_round_number demoAllRounds = some m ∧
      m ∈ demoAllRounds.map (fun x => x.scorecards.length) ∧
      ∀ n ∈ demoAllRounds.map (fun x => x.scorecards.length), n ≤ m :=
  current_round_is_max demoLineScores demoAllRounds (by decide)

/-- Helper: a hit in `get_from_cache` returns an entry of the backing
map. -/
theorem get_from_cache_some {α : Type} {cache : Cache α} {key : String}
    {now : Int} {e : Cached α}
    (h : (get_from_cache cache key now).1 = some e) : cache key = some e := by
  cases hk : cache key with
  | none => simp [get_from_cache, hk] at h
  | some r =>
    by_cases hexp : r.ts < now - maxCacheAge
    · simp [get_from_cache, hk, hexp] at h
    · simp [get_from_cache, hk, hexp] at h
      rw [h]

/-- C4 (amended): a cache entry is created on the first lookup miss
whenever the fetched response holds at least one item (an empty response
is returned as `None` without being cached), an expired entry is
overwritten by the fresh response on the next such miss for the identical
key, and entries are never deleted, in both the text and the image
cache. -/
theorem cache_lifecycle
    (s1 : SearchState) (q1 : String) (now1 ts1 : Int)
    (r1 : TextSearchResponse) (im1 : ImageSearchResponse)
    (h1t : s1.text_search_cache q1 = none)
    (h1i : s1.image_search_cache q1 = none)
    (h1r : r1.items ≠ []) (h1im : im1.items ≠ [])
    (s2 : SearchState) (q2 : String) (now2 ts2 : Int)
    (r2 : TextSearchResponse) (im2 : ImageSearchResponse)
    (e2t : Cached TextSearchResponse) (e2i : Cached ImageSearchResponse)
    (h2t : s2.text_search_cache q2 = some e2t)
    (h2texp : e2t.ts < now2 - maxCacheAge)
    (h2i : s2.image_search_cache q2 = some e2i)
    (h2iexp : e2i.ts < now2 - maxCacheAge)
    (h2r : r2.items ≠ []) (h2im : im2.items ≠ []) :
    (get_first_web_result s1 now1 ts1 r1 q1).2.text_search_cache q1 =
      some { ts := ts1, response := r1 } ∧
    (get_first_image s1 now1 ts1 im1 q1).2.image_search_cache q1 =
      some { ts := ts1, response := im1 } ∧
    (get_first_web_result s2 now2 ts2 r2 q2).2.text_search_cache q2 =
      some { ts := ts2, response := r2 } ∧
    (get_first_image s2 now2 ts2 im2 q2).2.image_search_cache q2 =
      some { ts := ts2, response := im2 } ∧
    (∀ (s : SearchState) (q k : String) (now tsd : Int)
        (r : TextSearchResponse) (im : ImageSearchResponse),
      ((s.text_search_cache k).isSome →
        ((get_first_web_result s now tsd r q).2.text_search_cache k).isSome) ∧
      ((s.image_search_cache k).isSome →
        ((get_first_image s now tsd im q).2.image_search_cache k).isSome)) := by
  refine ⟨?_, ?_, ?_, ?_, ?_⟩
  · simp [get_first_web_result, get_from_cache, h1t, h1r, add_to_cache]
  · simp [get_first_image, get_from_cache, h1i, h1im, add_to_cache]
  · simp [get_first_web_result, get_from_cache, h2t, h2texp, h2r, add_to_cache]
  · simp [get_first_image, get_from_cache, h2i, h2iexp, h2im, add_to_cache]
  · intro s q k now tsd r im
    constructor
    · intro hk
      cases hget : (get_from_cache s.text_search_cache q now).1 with
      | some cached_result => simpa [get_first_web_result, hget] using hk
      | none =>
        by_cases hr : r.items = []
        · simpa [get_first_web_result, hget, hr] using hk
        · by_cases hkq : k = q
          · simp [get_first_web_result, hget, hr, add_to_cache, hkq]
          · simpa [get_first_web_result, hget, hr, add_to_cache, hkq] using hk
    · intro hk
      cases hget : (get_from_cache s.image_search_cache q now).1 with
      | some cached_result => simpa [get_first_image, hget] using hk
      | none =>
        by_cases hr : im.items = []
        · simpa [get_first_image, hget, hr] using hk
        · by_cases hkq : k = q
          · simp [get_first_image, hget, hr, add_to_cache, hkq]
          · simpa [get_first_image, hget, hr, add_to_cache, hkq] using hk

/-- C4, counterexample to the claim as stated: a first lookup miss whose
fetched response has no items creates no cache entry, while the claim says
an entry is created on every first lookup miss. -/
theorem cache_lifecycle_counterexample :
    ¬ (emptySearch.text_search_cache "q" = none →
        (get_first_web_result emptySearch 0 0 ({ items := [] }) "q").2.text_search_cache "q"
          ≠ none) := by
  intro h
  exact h rfl rfl

/-- C4, witness: creation on a miss of the empty state, overwrite of the
expired entries of `expiredSearch`, and no deletion anywhere. -/
theorem cache_lifecycle_witness :
    (get_first_web_result emptySearch 0 1 demoTextResponse "q").2.text_search_cache "q" =
      some { ts := 1, response := demoTextResponse } ∧
    (get_first_image emptySearch 0 1 demoImageResponse "q").2.image_search_cache "q" =
      some { ts := 1, response := demoImageResponse } ∧
    (get_first_web_result expiredSearch (maxCacheAge + 1) 2 demoTextResponse
      "stale query").2.text_search_cache "stale query" =
      some { ts := 2, response := demoTextResponse } ∧
    (get_first_image expiredSearch (maxCacheAge + 1) 2 demoImageResponse
      "stale query").2.image_search_cache "stale query" =
      some { ts := 2, response := demoImageResponse } ∧
    (∀ (s : SearchState) (q k : String) (now tsd : Int)
        (r : TextSearchResponse) (im : ImageSearchResponse),
      ((s.text_search_cache k).isSome →
        ((get_first_web_result s now tsd r q).2.text_search_cache k).isSome) ∧
      ((s.image_search_cache k).isSome →
        ((get_first_image s now tsd im q).2.image_search_cache k).isSome)) :=
  cache_lifecycle emptySearch "q" 0 1 demoTextResponse demoImageResponse
    rfl rfl (by decide) (by decide)
    expiredSearch "stale query" (maxCacheAge + 1) 2 demoTextResponse
    demoImageResponse expiredTextEntry expiredImageEntry
    (by decide) (by decide) (by decide) (by decide) (by decide) (by decide)

/-- C9: both cached search operations preserve the invariant that every
stored response holds at least one item, and under that invariant the
cache-hit path returns the first item of the cached response and never
fails by indexing an empty list. -/
theorem cached_items_nonempty (s : SearchState) (now tsd : Int)
    (r : TextSearchResponse) (im : ImageSearchResponse) (q : String)
    (hInv : searchEntriesNonempty s) :
    searchEntriesNonempty (get_first_web_result s now tsd r q).2 ∧
    searchEntriesNonempty (get_first_image s now tsd im q).2 ∧
    (∀ e, (get_from_cache s.text_search_cache q now).1 = some e →
      (get_first_web_result s now tsd r q).1 = e.response.items.head? ∧
      ((get_first_web_result s now tsd r q).1).isSome) ∧
    (∀ e, (get_from_cache s.image_search_cache q now).1 = some e →
      (get_first_image s now tsd im q).1 = e.response.items.head? ∧
      ((get_first_image s now tsd im q).1).isSome) := by
  obtain ⟨hInvT, hInvI⟩ := hInv
  refine ⟨?_, ?_, ?_, ?_⟩
  · cases hget : (get_from_cache s.text_search_cache q now).1 with
    | some cached_result =>
      simpa [get_first_web_result, hget] using ⟨hInvT, hInvI⟩
    | none =>
      by_cases hr : r.items = []
      · simpa [get_first_web_result, hget, hr] using ⟨hInvT, hInvI⟩
      · refine ⟨?_, ?_⟩
        · intro k e hk
          simp only [get_first_web_result, hget, hr, if_false] at hk
          by_cases hkq : k = q
          · subst hkq
            simp [add_to_cache] at hk
            rw [← hk]
            exact hr
          · simp [add_to_cache, hkq] at hk
            exact hInvT k e hk
        · intro k e hk
          simp only [get_first_web_result, hget, hr, if_false] at hk
          exact hInvI k e hk
  · cases hget : (get_from_cache s.image_search_cache q now).1 with
    | some cached_result =>
      simpa [get_first_image, hget] using ⟨hInvT, hInvI⟩
    | none =>
      by_cases hr : im.items = []
      · simpa [get_first_image, hget, hr] using ⟨hInvT, hInvI⟩
      · refine ⟨?_, ?_⟩
        · intro k e hk
          simp only [get_first_image, hget, hr, if_false] at hk
          exact hInvT k e hk
        · intro k e hk
          simp only [get_first_image, hget, hr, if_false] at hk
          by_cases hkq : k = q
          · subst hkq
            simp [add_to_cache] at hk
            rw [← hk]
            exact hr
          · simp [add_to_cache, hkq] at hk
            exact hInvI k e hk
  · intro e he
    have hmem := get_from_cache_some he
    have hne := hInvT q e hmem
    constructor
    · simp [get_first_web_result, he]
    · simp only [get_first_web_result, he]
      exact List.head?_isSome.mpr hne
  · intro e he
    have hmem := get_from_cache_some he
    have hne := hInvI q e hmem
    constructor
    · simp [get_first_image, he]
    · simp only [get_first_image, he]
      exact List.head?_isSome.mpr hne

/-- C9, witness: the invariant claim applied to the empty search state. -/
theorem cached_items_nonempty_witness :
    searchEntriesNonempty (get_first_web_result emptySearch 0 0 demoTextResponse "q").2 ∧
    searchEntriesNonempty (get_first_image emptySearch 0 0 demoImageResponse "q").2 ∧
    (∀ e, (get_from_cache emptySearch.text_search_cache "q" 0).1 = some e →
      (get_first_web_result emptySearch 0 0 demoTextResponse "q").1 = e.response.items.head? ∧
      ((get_first_web_result emptySearch 0 0 demoTextResponse "q").1).isSome) ∧
    (∀ e, (get_from_cache emptySearch.image_search_cache "q" 0).1 = some e →
      (get_first_image emptySearch 0 0 demoImageResponse "q").1 = e.response.items.head? ∧
      ((get_first_image emptySearch 0 0 demoImageResponse "q").1).isSome) :=
  cached_items_nonempty emptySearch 0 0 demoTextResponse demoImageResponse "q"
    ⟨(fun _ _ hk => nomatch hk), (fun _ _ hk => nomatch hk)⟩

end GolfBot
